import Mathlib

/-!
Verification of the astriumjs gateway session manager and REST dispatcher.

The definitions below are a shallow embedding of
`src/gateway/WebSocketManager.ts` and `src/rest/RESTManager.ts`:
each TypeScript method becomes a Lean function on an explicit state record,
side effects (socket transmissions, emitted events, log lines, sleeps)
become an explicit `List Effect` / `List RESTEvent` result, and the
asynchronous `connect()` outcome inside `reconnect` is supplied by an
oracle list of booleans.
-/

set_option maxRecDepth 4000

namespace Astrium

/-- Modelled from the spec: the file `constants/Gateway.ts` defining
`GatewayOpcodes` is not among the provided repository files; the spec (§6)
fixes the numeric opcode values used by the core: dispatch=0, heartbeat=1,
identify=2, resume=6, reconnect-request=7, invalid-session=9, hello=10,
heartbeat-ack=11. -/
def GatewayOpcodes.DISPATCH : Nat := 0

def GatewayOpcodes.HEARTBEAT : Nat := 1

def GatewayOpcodes.IDENTIFY : Nat := 2

def GatewayOpcodes.RESUME : Nat := 6

def GatewayOpcodes.RECONNECT : Nat := 7

def GatewayOpcodes.INVALID_SESSION : Nat := 9

def GatewayOpcodes.HELLO : Nat := 10

def GatewayOpcodes.HEARTBEAT_ACK : Nat := 11

/-- Modelled from the spec: the numeric `GatewayCloseCodes` constants also
live in the missing `constants/Gateway.ts`. The spec classifies
authentication failure, invalid shard, sharding required, invalid API
version, invalid intents and disallowed intents as fatal
(`WebSocketManager.shouldReconnect` lists exactly these six names); the
standard protocol values are used for them. -/
def nonRecoverableCodes : List Nat := [4004, 4010, 4011, 4012, 4013, 4014]

/-- The `d` field of a gateway payload: JSON data, modelled by the shapes
the manager reads or builds. -/
inductive DValue
  | null
  | int (n : Int)
  | hello (heartbeat_interval : Nat)
  | ready (session_id : Option String) (resume_gateway_url : Option String)
  | identifyData (shardId : Nat) (totalShards : Nat)
  | resumeData (session_id : String) (seq : Int)
  | other
deriving DecidableEq, Repr

/-- `GatewayPayload` from `types/GatewayTypes` as the manager uses it:
`op`, `d`, optional sequence `s` and optional event name `t`. -/
structure GatewayPayload where
  op : Nat
  d : DValue
  s : Option Int := none
  t : Option String := none
deriving DecidableEq, Repr

/-- The `ws` readyState values of the socket library. -/
inductive WsReadyState
  | CONNECTING
  | OPEN
  | CLOSING
  | CLOSED
deriving DecidableEq, Repr

/-- The mutable fields of `WebSocketManager` (lines 23–30): `ws` is `none`
when the socket reference is null, otherwise its readyState;
`heartbeatInterval` is `none` when the timer handle is null, otherwise the
armed period. -/
structure WSState where
  ws : Option WsReadyState
  heartbeatInterval : Option Nat
  lastHeartbeatAck : Bool
  sequence : Option Int
  sessionId : Option String
  resumeGatewayUrl : Option String
  reconnectAttempts : Nat
  isReconnecting : Bool
deriving DecidableEq, Repr

/-- Field initializers of `WebSocketManager` (lines 23–30). -/
def initialState : WSState :=
  { ws := none
    heartbeatInterval := none
    lastHeartbeatAck := true
    sequence := none
    sessionId := none
    resumeGatewayUrl := none
    reconnectAttempts := 0
    isReconnecting := false }

/-- A state whose socket is established and OPEN. -/
def connectedState : WSState :=
  { initialState with ws := some WsReadyState.OPEN }

/-- Observable side effects of the manager: log lines, emitter events,
socket transmissions, timers and the entry into `reconnect()`. -/
inductive Effect
  | logDebug
  | logInfo
  | logWarn
  | logError
  | transmit (p : GatewayPayload)
  | emitRaw (p : GatewayPayload)
  | emitReady
  | emitResumed
  | emitDisconnect (code : Nat)
  | emitReconnecting
  | emitError (msg : String)
  | emitClientEvent (name : String)
  | scheduleIdentify (delayMs : Nat)
  | sleep (ms : Nat)
  | connectAttempt
  | callReconnect
deriving DecidableEq, Repr

/-- Client option values consumed by the two managers, with the defaults of
`AstriumClient` (`timeout: 15000`, `rateLimitRetryLimit: 3`,
`connectionTimeout: 30000`, `maxReconnectAttempts: 5`,
`reconnectDelay: 5000`), plus the manager's shard constructor arguments. -/
structure ClientConfig where
  connectionTimeout : Nat := 30000
  maxReconnectAttempts : Nat := 5
  reconnectDelay : Nat := 5000
  restTimeout : Nat := 15000
  rateLimitRetryLimit : Nat := 3
  shardId : Nat := 0
  totalShards : Nat := 1
deriving DecidableEq, Repr

/-- The default client configuration. -/
def defaultConfig : ClientConfig := {}

/-- `WebSocketManager.send` (lines 102–111): unless the socket exists and
its readyState is OPEN, the payload is dropped with a warning and the
method returns; otherwise the payload is serialized, logged and
transmitted. The method assigns no field, so the state is returned
unchanged on both paths. -/
def WSState.send (st : WSState) (p : GatewayPayload) : WSState × List Effect :=
  if st.ws ≠ some WsReadyState.OPEN then
    (st, [Effect.logWarn])
  else
    (st, [Effect.logDebug, Effect.transmit p])

/-- The heartbeat payload `{op: HEARTBEAT, d: sequence}` (lines 263–266). -/
def heartbeatPayload (s : Option Int) : GatewayPayload :=
  { op := GatewayOpcodes.HEARTBEAT
    d := match s with
         | some n => DValue.int n
         | none => DValue.null }

/-- `WebSocketManager.sendHeartbeat` (lines 261–268): clears the ack flag,
sends a heartbeat carrying the current sequence, logs. -/
def sendHeartbeat (st : WSState) : WSState × List Effect :=
  let st1 := { st with lastHeartbeatAck := false }
  let r := st1.send (heartbeatPayload st1.sequence)
  (r.1, r.2 ++ [Effect.logDebug])

/-- `WebSocketManager.identify` (lines 273–291): sends the IDENTIFY payload. -/
def identify (cfg : ClientConfig) (st : WSState) : WSState × List Effect :=
  let r := st.send { op := GatewayOpcodes.IDENTIFY
                     d := DValue.identifyData cfg.shardId cfg.totalShards }
  (r.1, r.2 ++ [Effect.logDebug])

/-- `WebSocketManager.resume` (lines 296–307): sends the RESUME payload
with the held session id and sequence (both asserted non-null there). -/
def WSState.resume (st : WSState) : WSState × List Effect :=
  let r := st.send { op := GatewayOpcodes.RESUME
                     d := DValue.resumeData (st.sessionId.getD "") (st.sequence.getD 0) }
  (r.1, r.2 ++ [Effect.logDebug])

/-- `WebSocketManager.startHeartbeat` (lines 239–256): clears any previous
timer, arms the interval with the given period, then sends the initial
heartbeat immediately. -/
def startHeartbeat (st : WSState) (interval : Nat) : WSState × List Effect :=
  let st1 := { st with heartbeatInterval := some interval }
  sendHeartbeat st1

/-- One tick of the interval armed by `startHeartbeat` (lines 244–252):
a missing ack means the connection is dead and `reconnect()` is entered
without sending; otherwise a fresh heartbeat is sent. -/
def heartbeatTick (st : WSState) : WSState × List Effect :=
  if st.lastHeartbeatAck = false then
    (st, [Effect.logWarn, Effect.callReconnect])
  else
    sendHeartbeat st

/-- JavaScript truthiness of the nullable string `this.sessionId`. -/
def truthyStr : Option String → Bool
  | none => false
  | some s => s ≠ ""

/-- `WebSocketManager.handleHello` (lines 222–234): log, start
heartbeating, then resume when `this.sessionId && this.sequence !== null`,
else identify. A malformed `d` yields interval 0 (JS `undefined` timer
delay). -/
def handleHello (cfg : ClientConfig) (st : WSState) (d : DValue) : WSState × List Effect :=
  let interval := match d with
                  | DValue.hello i => i
                  | _ => 0
  let r1 := startHeartbeat st interval
  if truthyStr r1.1.sessionId && r1.1.sequence.isSome then
    let r2 := WSState.resume r1.1
    (r2.1, Effect.logDebug :: r1.2 ++ r2.2)
  else
    let r2 := identify cfg r1.1
    (r2.1, Effect.logDebug :: r1.2 ++ r2.2)

/-- `WebSocketManager.handleReady` (lines 209–217): stores the session id
and resume URL from the payload (JS `undefined` becomes `none` on a
malformed payload), clears the reconnecting flag and attempt counter. -/
def handleReady (st : WSState) (d : DValue) : WSState × List Effect :=
  let sid := match d with
             | DValue.ready s _ => s
             | _ => none
  let url := match d with
             | DValue.ready _ u => u
             | _ => none
  ({ st with sessionId := sid, resumeGatewayUrl := url,
             isReconnecting := false, reconnectAttempts := 0 },
   [Effect.logInfo, Effect.emitReady])

/-- `WebSocketManager.handleDispatch` (lines 187–204): READY and RESUMED
are handled internally, every other named event is forwarded to the client
by lower-cased name; a null `t` makes `payload.t!.toLowerCase()` throw,
which the message handler (lines 119–126) catches and logs. -/
def handleDispatch (st : WSState) (p : GatewayPayload) : WSState × List Effect :=
  match p.t with
  | none => (st, [Effect.logError])
  | some name =>
    if name = "READY" then
      handleReady st p.d
    else if name = "RESUMED" then
      ({ st with isReconnecting := false, reconnectAttempts := 0 },
       [Effect.logInfo, Effect.emitResumed])
    else
      (st, [Effect.emitClientEvent name.toLower])

/-- `WebSocketManager.handlePayload` (lines 142–182): emits the raw frame,
stores any non-null carried sequence, then switches on the opcode.
`Effect.callReconnect` marks the entry into `reconnect()` (modelled
separately as `reconnect`). -/
def handlePayload (cfg : ClientConfig) (st : WSState) (p : GatewayPayload) :
    WSState × List Effect :=
  let st1 := match p.s with
             | some v => { st with sequence := some v }
             | none => st
  let r :=
    if p.op = GatewayOpcodes.DISPATCH then
      handleDispatch st1 p
    else if p.op = GatewayOpcodes.HEARTBEAT then
      sendHeartbeat st1
    else if p.op = GatewayOpcodes.RECONNECT then
      (st1, [Effect.logInfo, Effect.callReconnect])
    else if p.op = GatewayOpcodes.INVALID_SESSION then
      ({ st1 with sessionId := none, sequence := none },
       [Effect.logWarn, Effect.scheduleIdentify 5000])
    else if p.op = GatewayOpcodes.HELLO then
      handleHello cfg st1 p.d
    else if p.op = GatewayOpcodes.HEARTBEAT_ACK then
      ({ st1 with lastHeartbeatAck := true }, [Effect.logDebug])
    else
      (st1, [Effect.logDebug])
  (r.1, Effect.emitRaw p :: r.2)

/-- `WebSocketManager.shouldReconnect` (lines 341–352): reconnect unless
the close code is one of the six non-recoverable codes or the attempt
counter has reached the configured maximum. -/
def shouldReconnect (cfg : ClientConfig) (st : WSState) (code : Nat) : Bool :=
  !(decide (code ∈ nonRecoverableCodes)) &&
    decide (st.reconnectAttempts < cfg.maxReconnectAttempts)

/-- `WebSocketManager.handleClose` (lines 322–336): clears the heartbeat
timer, emits `disconnect`, then either enters `reconnect()` or logs the
non-recoverable code. No `error` event is emitted on either path. -/
def handleClose (cfg : ClientConfig) (st : WSState) (code : Nat) :
    WSState × List Effect :=
  let st1 := { st with heartbeatInterval := none }
  if shouldReconnect cfg st1 code then
    (st1, [Effect.emitDisconnect code, Effect.callReconnect])
  else
    (st1, [Effect.emitDisconnect code, Effect.logError])

/-- `WebSocketManager.reconnect` (lines 357–390). `connectResults`
supplies, in order, the success of each awaited `connect()` call; the run
returns `none` when it would need a result beyond those supplied. The
early return on `isReconnecting` (line 358), the attempt increment, the
teardown of the old socket, the delay, and the catch branch that either
re-enters `reconnect()` or emits the terminal error are all modelled
one-to-one. -/
def reconnect (cfg : ClientConfig) (st : WSState) (connectResults : List Bool) :
    Option (WSState × List Effect) :=
  if st.isReconnecting then
    some (st, [])
  else
    match connectResults with
    | [] => none
    | ok :: rest =>
      let st1 := { st with isReconnecting := true
                           reconnectAttempts := st.reconnectAttempts + 1
                           ws := none }
      let effs := [Effect.logInfo, Effect.emitReconnecting,
                   Effect.sleep cfg.reconnectDelay, Effect.connectAttempt]
      if ok then
        some ({ st1 with ws := some WsReadyState.OPEN }, effs)
      else if st1.reconnectAttempts < cfg.maxReconnectAttempts then
        match reconnect cfg st1 rest with
        | some r => some (r.1, effs ++ Effect.logError :: r.2)
        | none => none
      else
        some (st1, effs ++ [Effect.logError,
                            Effect.emitError "Max reconnection attempts reached"])

/-- Processing of a list of inbound frames by the message handler, in
arrival order. -/
def processFrames (cfg : ClientConfig) (st : WSState) :
    List GatewayPayload → WSState × List Effect
  | [] => (st, [])
  | p :: rest =>
    let r := handlePayload cfg st p
    let r2 := processFrames cfg r.1 rest
    (r2.1, r.2 ++ r2.2)

/-- The last non-null `s` value among the frames, else the prior value: the
value `this.sequence` holds after the assignments of lines 145–147. -/
def lastCarried : List GatewayPayload → Option Int → Option Int
  | [], prior => prior
  | p :: rest, prior =>
    lastCarried rest (match p.s with
                      | some v => some v
                      | none => prior)

/-- A dispatch frame carrying an event name and a sequence. -/
def dispatchFrame (name : String) (seq : Int) : GatewayPayload :=
  { op := GatewayOpcodes.DISPATCH, d := DValue.other, s := some seq, t := some name }

/-- The number of `emitError` effects in a list. -/
def countEmitError (effs : List Effect) : Nat :=
  (effs.filter fun e =>
    match e with
    | Effect.emitError _ => true
    | _ => false).length

/-- The number of `connectAttempt` effects in a list. -/
def countConnectAttempts (effs : List Effect) : Nat :=
  (effs.filter fun e =>
    match e with
    | Effect.connectAttempt => true
    | _ => false).length

/-! REST dispatcher model (`src/rest/RESTManager.ts`). -/

/-- `RateLimitData` (lines 26–33): the per-bucket table entry. `reset` is
the epoch time in seconds the code compares as `bucket.reset * 1000`. -/
structure RateLimitData where
  limit : Int
  remaining : Int
  reset : Int
  resetAfter : Int
  bucket : Option String
  global : Bool
deriving DecidableEq, Repr

/-- `RESTManager.getBucketId` (lines 281–285):
`method + ":" + endpoint.split("?")[0]`, i.e. the method and the part of
the endpoint before the first question mark. -/
def getBucketId (endpoint : String) (method : String) : String :=
  method ++ ":" ++ String.mk (endpoint.data.takeWhile (fun c => c ≠ '?'))

/-- `Map.get` on an association list keyed by strings. -/
def lookupAssoc {α : Type} (k : String) : List (String × α) → Option α
  | [] => none
  | (k1, v) :: rest => if k1 = k then some v else lookupAssoc k rest

/-- `Map.set` on an association list keyed by strings: replaces the entry
under `k` when present, else appends it. -/
def setAssoc {α : Type} (k : String) (v : α) : List (String × α) → List (String × α)
  | [] => [(k, v)]
  | (k1, v1) :: rest => if k1 = k then (k, v) :: rest else (k1, v1) :: setAssoc k v rest

/-- The rate-limit fields of `RESTManager` (lines 44–46) with their
initializers: `globalReset = 0`, `globalRemaining = 1`, empty table. -/
structure RESTState where
  globalReset : Int := 0
  globalRemaining : Int := 1
  buckets : List (String × RateLimitData) := []
deriving DecidableEq, Repr

/-- The `x-ratelimit-*` response headers as `updateRateLimits` reads them;
`none` stands for an absent header (the code then applies its parse
defaults), and `global` models `get("x-ratelimit-global") === "true"`. -/
structure RespHeaders where
  limit : Option Int := none
  remaining : Option Int := none
  reset : Option Int := none
  resetAfter : Option Int := none
  bucket : Option String := none
  global : Bool := false
deriving DecidableEq, Repr

/-- `RESTManager.updateRateLimits` (lines 253–276): parse the headers with
defaults `limit=1, remaining=1, reset=0, resetAfter=0`; a global response
updates the global pair, any other response stores a fresh entry in the
table under the `bucketId` argument (the caller passes the locally derived
`getBucketId` value, line 211); the service bucket header is kept only as
the entry's `bucket` field. -/
def updateRateLimits (h : RespHeaders) (bucketId : String) (now : Int)
    (st : RESTState) : RESTState :=
  let limit := h.limit.getD 1
  let remaining := h.remaining.getD 1
  let reset := h.reset.getD 0
  let resetAfter := h.resetAfter.getD 0
  if h.global then
    { st with globalRemaining := remaining
              globalReset := now + resetAfter * 1000 }
  else
    let entry : RateLimitData :=
      { limit := limit, remaining := remaining, reset := reset,
        resetAfter := resetAfter, bucket := h.bucket, global := false }
    { st with buckets := setAssoc bucketId entry st.buckets }

/-- Observable events of the dispatcher loop: an `executeRequest` call, a
resolution, a rejection, and a sleep (in milliseconds). -/
inductive RESTEvent
  | executed (id : Nat)
  | resolvedOk (id : Nat)
  | rejectedErr (id : Nat) (status : Nat)
  | slept (ms : Int)
deriving DecidableEq, Repr

/-- The rate-limit gate of `processQueue` (lines 104–118): first the global
check (`globalRemaining <= 0 && now < globalReset` sleeps until
`globalReset`), then the per-bucket check (`remaining <= 0 &&
now < reset * 1000` sleeps until `reset * 1000`). Returns the time at
which `executeRequest` is reached, and the sleeps performed. -/
def admission (st : RESTState) (now : Int) (bucketId : String) :
    Int × List RESTEvent :=
  let g :=
    if st.globalRemaining ≤ 0 ∧ now < st.globalReset then
      (st.globalReset, [RESTEvent.slept (st.globalReset - now)])
    else
      (now, ([] : List RESTEvent))
  match lookupAssoc bucketId st.buckets with
  | some b =>
    if b.remaining ≤ 0 ∧ g.1 < b.reset * 1000 then
      (b.reset * 1000, g.2 ++ [RESTEvent.slept (b.reset * 1000 - g.1)])
    else
      g
  | none => g

/-- The result of one `executeRequest` call as `processQueue`'s catch sees
it: a 2xx resolution, or a thrown `AstriumAPIError` with its status and
(for 429) the parsed `retry_after`. -/
inductive Outcome
  | ok
  | err (status : Nat) (retryAfter : Int)
deriving DecidableEq, Repr

/-- `QueuedRequest` (lines 35–41), with the outcome of each successive
execution of the request supplied as a script. -/
structure QueuedRequest where
  id : Nat
  script : List Outcome
  retries : Nat := 0
deriving DecidableEq, Repr

/-- The `while` loop of `RESTManager.processQueue` (lines 101–147), run to
completion with explicit fuel: the head request is shifted off, executed,
and then resolved (2xx), put back at the front after sleeping the service
delay (429, `retries` untouched, line 122–131), put back at the front with
`retries + 1` (any other error while `retries` is below
`rateLimitRetryLimit`, lines 133–140), or rejected (line 142). `none` is
returned when the fuel runs out or a request's outcome script is
exhausted. The admission waits of lines 104–118 are modelled by
`admission`; they delay but never reorder the queue. -/
def processLoop (cfg : ClientConfig) : Nat → List QueuedRequest → Option (List RESTEvent)
  | _, [] => some []
  | 0, _ :: _ => none
  | fuel + 1, req :: rest =>
    match req.script with
    | [] => none
    | outcome :: scr =>
      let req2 := { req with script := scr }
      match outcome with
      | Outcome.ok =>
        (processLoop cfg fuel rest).map
          (fun evts => RESTEvent.executed req.id :: RESTEvent.resolvedOk req.id :: evts)
      | Outcome.err status retryAfter =>
        if status = 429 then
          (processLoop cfg fuel (req2 :: rest)).map
            (fun evts => RESTEvent.executed req.id :: RESTEvent.slept retryAfter :: evts)
        else if req.retries < cfg.rateLimitRetryLimit then
          (processLoop cfg fuel ({ req2 with retries := req.retries + 1 } :: rest)).map
            (fun evts => RESTEvent.executed req.id :: evts)
        else
          (processLoop cfg fuel rest).map
            (fun evts => RESTEvent.executed req.id :: RESTEvent.rejectedErr req.id status :: evts)

/-- The `queues` and `processing` fields of `RESTManager` (lines 47–48). -/
structure RESTQueues where
  queues : List (String × List QueuedRequest) := []
  processing : List String := []
deriving DecidableEq, Repr

/-- The entry of `RESTManager.processQueue` (lines 93–99): a bucket already
being processed, or an absent/empty queue, returns at once producing no
events; otherwise the bucket is marked as processing and its queue is run
by the loop. -/
def processQueueCall (cfg : ClientConfig) (fuel : Nat) (st : RESTQueues)
    (bucketId : String) : Option (List RESTEvent) :=
  if decide (bucketId ∈ st.processing) then
    some []
  else
    match lookupAssoc bucketId st.queues with
    | none => some []
    | some [] => some []
    | some (req :: rest) => processLoop cfg fuel (req :: rest)

/-- The ids of the requests a run completed (resolved or rejected), in
order. -/
def completionIds : List RESTEvent → List Nat
  | [] => []
  | RESTEvent.resolvedOk i :: rest => i :: completionIds rest
  | RESTEvent.rejectedErr i _ :: rest => i :: completionIds rest
  | _ :: rest => completionIds rest

/-- The number of `executed` events in a list. -/
def countExecuted (evts : List RESTEvent) : Nat :=
  (evts.filter fun e =>
    match e with
    | RESTEvent.executed _ => true
    | _ => false).length

/-- Demo queue for one bucket: request 1 suffers one transient failure
before succeeding, request 2 succeeds at once. -/
def demoQueue : List QueuedRequest :=
  [{ id := 1, script := [Outcome.err 500 0, Outcome.ok] },
   { id := 2, script := [Outcome.ok] }]

/-- The events `processLoop` produces on `demoQueue`. -/
def demoEvents : List RESTEvent :=
  [RESTEvent.executed 1, RESTEvent.executed 1, RESTEvent.resolvedOk 1,
   RESTEvent.executed 2, RESTEvent.resolvedOk 2]

/-- A manager state whose only bucket is already being processed. -/
def procBusy : RESTQueues :=
  { queues := [("GET:/a", demoQueue)], processing := ["GET:/a"] }

/-! Theorems about the gateway session machine. -/

/-- `handleDispatch` never changes the tracked sequence. -/
theorem handleDispatch_sequence (st : WSState) (p : GatewayPayload) :
    (handleDispatch st p).1.sequence = st.sequence := by
  unfold handleDispatch
  cases p.t with
  | none => rfl
  | some name =>
    by_cases h1 : name = "READY"
    · simp [h1, handleReady]
    · by_cases h2 : name = "RESUMED"
      · simp [h1, h2]
      · simp [h1, h2]

/-- For a dispatch frame, `handlePayload` sets the tracked sequence to the
carried `s` when non-null and leaves it untouched otherwise. -/
theorem handlePayload_sequence_dispatch (cfg : ClientConfig) (st : WSState)
    (p : GatewayPayload) (h : p.op = GatewayOpcodes.DISPATCH) :
    (handlePayload cfg st p).1.sequence =
      (match p.s with
       | some v => some v
       | none => st.sequence) := by
  cases hs : p.s with
  | none =>
    have hd := handleDispatch_sequence st p
    simp [handlePayload, hs, h, hd]
  | some v =>
    have hd := handleDispatch_sequence { st with sequence := some v } p
    simp [handlePayload, hs, h, hd]

/-- C1 (counterexample): after dispatch frames carrying sequences 5 then 3
the stored sequence is 3, not the maximum 5 — the lower value was not
ignored. -/
theorem sequence_overwrite_cx :
    (processFrames defaultConfig connectedState
      [dispatchFrame "MESSAGE_CREATE" 5, dispatchFrame "MESSAGE_CREATE" 3]).1.sequence
        = some 3 ∧ (some 3 : Option Int) ≠ some 5 := by
  decide

/-- C1 (amended): over any run of inbound dispatch frames the Session's
tracked sequence equals the last non-null carried sequence — every carried
value, lower or equal ones included, overwrites the stored one; only a
frame carrying no sequence leaves it unchanged. -/
theorem dispatch_sequence_last_write (cfg : ClientConfig) (st : WSState)
    (frames : List GatewayPayload)
    (h : ∀ f ∈ frames, f.op = GatewayOpcodes.DISPATCH) :
    (processFrames cfg st frames).1.sequence = lastCarried frames st.sequence := by
  induction frames generalizing st with
  | nil => rfl
  | cons p rest ih =>
    have hp : p.op = GatewayOpcodes.DISPATCH := h p (List.mem_cons_self p rest)
    have hrest : ∀ f ∈ rest, f.op = GatewayOpcodes.DISPATCH :=
      fun f hf => h f (List.mem_cons_of_mem p hf)
    show (processFrames cfg (handlePayload cfg st p).1 rest).1.sequence = _
    rw [ih (handlePayload cfg st p).1 hrest,
        handlePayload_sequence_dispatch cfg st p hp]
    rfl

/-- C1 witness: the last-write rule applied to two concrete frames. -/
theorem dispatch_sequence_last_write_witness :
    (processFrames defaultConfig connectedState
      [dispatchFrame "GUILD_CREATE" 5, dispatchFrame "MESSAGE_CREATE" 7]).1.sequence =
      lastCarried [dispatchFrame "GUILD_CREATE" 5, dispatchFrame "MESSAGE_CREATE" 7]
        connectedState.sequence :=
  dispatch_sequence_last_write defaultConfig connectedState
    [dispatchFrame "GUILD_CREATE" 5, dispatchFrame "MESSAGE_CREATE" 7] (by decide)

/-- C2 (counterexample): closing with the fatal authentication-failure code
emits no `error` event at all (the claim demands exactly one fatal-error
notification), although indeed no reconnect is entered. -/
theorem fatal_close_no_error_event_cx :
    countEmitError (handleClose defaultConfig connectedState 4004).2 = 0 ∧
    Effect.callReconnect ∉ (handleClose defaultConfig connectedState 4004).2 ∧
    (0 : Nat) ≠ 1 := by
  decide

/-- C2 (amended): on a close code classified fatal the machine terminates —
the heartbeat timer is cleared, a `disconnect` is emitted, and `reconnect`
is never entered — but no fatal-error notification is issued to the
caller: the only other effect is an error log line. -/
theorem handleClose_fatal_terminates (cfg : ClientConfig) (st : WSState) (code : Nat)
    (h : code ∈ nonRecoverableCodes) :
    handleClose cfg st code =
      ({ st with heartbeatInterval := none },
       [Effect.emitDisconnect code, Effect.logError]) ∧
    Effect.callReconnect ∉ (handleClose cfg st code).2 ∧
    countEmitError (handleClose cfg st code).2 = 0 := by
  have hc : shouldReconnect cfg { st with heartbeatInterval := none } code = false := by
    simp [shouldReconnect, h]
  refine ⟨?_, ?_, ?_⟩
  · simp [handleClose, hc]
  · simp [handleClose, hc]
  · simp [handleClose, hc, countEmitError]

/-- C2 witness: the fatal-close behavior at close code 4004 from a
connected state. -/
theorem handleClose_fatal_terminates_witness :
    handleClose defaultConfig connectedState 4004 =
      ({ connectedState with heartbeatInterval := none },
       [Effect.emitDisconnect 4004, Effect.logError]) :=
  (handleClose_fatal_terminates defaultConfig connectedState 4004 (by decide)).1

/-- C3 (code evaluated at the failing input): with the default limit of 5
attempts and every `connect()` failing, `reconnect` performs exactly one
attempt — the recursive retry call returns at once because
`isReconnecting` is still set — leaving the counter at 1 and never
emitting the terminal max-attempts error. -/
theorem reconnect_stalls_after_first_failure :
    reconnect defaultConfig initialState [false, false, false, false, false] =
      some ({ initialState with isReconnecting := true, reconnectAttempts := 1, ws := none },
            [Effect.logInfo, Effect.emitReconnecting, Effect.sleep 5000,
             Effect.connectAttempt, Effect.logError]) ∧
    countConnectAttempts
      [Effect.logInfo, Effect.emitReconnecting, Effect.sleep 5000,
       Effect.connectAttempt, Effect.logError] = 1 ∧
    countEmitError
      [Effect.logInfo, Effect.emitReconnecting, Effect.sleep 5000,
       Effect.connectAttempt, Effect.logError] = 0 := by
  decide

/-- C9: on `hello` the heartbeat timer is armed with the carried interval
and one heartbeat is sent immediately; a tick without a pending ack
initiates a reconnect without sending; a tick with the ack present clears
the flag and sends a heartbeat carrying the current sequence; a
heartbeat-ack frame sets the flag back. -/
theorem heartbeat_protocol (cfg : ClientConfig) (st : WSState) (i : Nat) :
    (st.ws = some WsReadyState.OPEN →
      (handleHello cfg st (DValue.hello i)).1.heartbeatInterval = some i ∧
      Effect.transmit (heartbeatPayload st.sequence) ∈ (handleHello cfg st (DValue.hello i)).2 ∧
      (handleHello cfg st (DValue.hello i)).1.lastHeartbeatAck = false) ∧
    (st.lastHeartbeatAck = false →
      heartbeatTick st = (st, [Effect.logWarn, Effect.callReconnect])) ∧
    (st.lastHeartbeatAck = true →
      (heartbeatTick st).1.lastHeartbeatAck = false ∧
      (st.ws = some WsReadyState.OPEN →
        Effect.transmit (heartbeatPayload st.sequence) ∈ (heartbeatTick st).2)) ∧
    (handlePayload cfg st { op := GatewayOpcodes.HEARTBEAT_ACK, d := DValue.null }).1.lastHeartbeatAck
      = true := by
  refine ⟨fun hws => ?_, fun hna => ?_, fun ha => ?_, ?_⟩
  · simp only [handleHello, startHeartbeat, sendHeartbeat, WSState.send, WSState.resume,
               identify, heartbeatPayload, hws]
    by_cases hc : truthyStr st.sessionId = true ∧ st.sequence.isSome = true <;>
      simp [hc]
  · simp [heartbeatTick, hna]
  · refine ⟨?_, fun hws => ?_⟩
    · by_cases hws2 : st.ws = some WsReadyState.OPEN <;>
        simp [heartbeatTick, ha, sendHeartbeat, WSState.send, hws2]
    · simp [heartbeatTick, ha, sendHeartbeat, WSState.send, hws, heartbeatPayload]
  · simp [handlePayload, GatewayOpcodes.DISPATCH, GatewayOpcodes.HEARTBEAT,
          GatewayOpcodes.RECONNECT, GatewayOpcodes.INVALID_SESSION,
          GatewayOpcodes.HELLO, GatewayOpcodes.HEARTBEAT_ACK]

/-- C9 witness: the heartbeat protocol at a connected state with the spec's
41250ms interval. -/
theorem heartbeat_protocol_witness :
    (handleHello defaultConfig connectedState (DValue.hello 41250)).1.heartbeatInterval
        = some 41250 ∧
    heartbeatTick { connectedState with lastHeartbeatAck := false } =
      ({ connectedState with lastHeartbeatAck := false },
       [Effect.logWarn, Effect.callReconnect]) ∧
    (handlePayload defaultConfig connectedState
      { op := GatewayOpcodes.HEARTBEAT_ACK, d := DValue.null }).1.lastHeartbeatAck = true :=
  ⟨((heartbeat_protocol defaultConfig connectedState 41250).1 (by decide)).1,
   (heartbeat_protocol defaultConfig { connectedState with lastHeartbeatAck := false } 0).2.1
     (by decide),
   (heartbeat_protocol defaultConfig connectedState 0).2.2.2⟩

/-- C10: calling `send` while the socket is absent or not OPEN drops the
payload: nothing is transmitted, only a warning is logged, the state is
returned unchanged, and the (total) function raises nothing. -/
theorem send_noop_when_not_open (st : WSState) (p : GatewayPayload)
    (h : st.ws ≠ some WsReadyState.OPEN) :
    st.send p = (st, [Effect.logWarn]) := by
  simp [WSState.send, h]

/-- C10 witness: sending on the freshly constructed manager (null socket)
is the warned no-op. -/
theorem send_noop_witness :
    initialState.send (heartbeatPayload none) = (initialState, [Effect.logWarn]) :=
  send_noop_when_not_open initialState (heartbeatPayload none) (by decide)

/-! Theorems about the REST dispatcher. -/

/-- Looking up the key just set finds the new entry. -/
theorem lookupAssoc_setAssoc_self {α : Type} (k : String) (v : α) :
    ∀ l : List (String × α), lookupAssoc k (setAssoc k v l) = some v := by
  intro l
  induction l with
  | nil => simp [setAssoc, lookupAssoc]
  | cons hd t ih =>
    obtain ⟨k1, v1⟩ := hd
    by_cases hk : k1 = k
    · simp [setAssoc, lookupAssoc, hk]
    · simp [setAssoc, lookupAssoc, hk, ih]

/-- Setting one key leaves every other key's lookup unchanged. -/
theorem lookupAssoc_setAssoc_ne {α : Type} (k k2 : String) (v : α) (hne : k2 ≠ k) :
    ∀ l : List (String × α), lookupAssoc k2 (setAssoc k v l) = lookupAssoc k2 l := by
  intro l
  induction l with
  | nil => simp [setAssoc, lookupAssoc, Ne.symm hne]
  | cons hd t ih =>
    obtain ⟨k1, v1⟩ := hd
    by_cases hk : k1 = k
    · subst hk
      simp [setAssoc, lookupAssoc, Ne.symm hne]
    · by_cases hk2 : k1 = k2
      · simp [setAssoc, lookupAssoc, hk, hk2, hne]
      · simp [setAssoc, lookupAssoc, hk, hk2, ih]

/-- C8 (counterexample): a non-global response whose service bucket header
is `"abc123"` leaves the table with no entry under `"abc123"`; the entry
sits under the locally derived `GET:/channels/1/messages` key, the service
key surviving only as the entry's `bucket` field. -/
theorem rekey_cx :
    lookupAssoc "abc123"
      (updateRateLimits
        { limit := some 5, remaining := some 4, reset := some 100, resetAfter := some 10,
          bucket := some "abc123", global := false }
        (getBucketId "/channels/1/messages" "GET") 0 {}).buckets = none ∧
    lookupAssoc (getBucketId "/channels/1/messages" "GET")
      (updateRateLimits
        { limit := some 5, remaining := some 4, reset := some 100, resetAfter := some 10,
          bucket := some "abc123", global := false }
        (getBucketId "/channels/1/messages" "GET") 0 {}).buckets =
      some { limit := 5, remaining := 4, reset := 100, resetAfter := 10,
             bucket := some "abc123", global := false } := by
  decide

/-- C8 (amended): a non-global response is stored under the locally derived
method+route key passed by the caller — the table is not re-keyed; the
service-provided bucket key is recorded only inside the entry's `bucket`
field, and every other key's entry is untouched. -/
theorem updateRateLimits_local_key (h : RespHeaders) (bucketId : String) (now : Int)
    (st : RESTState) (hg : h.global = false) :
    lookupAssoc bucketId (updateRateLimits h bucketId now st).buckets =
      some { limit := h.limit.getD 1, remaining := h.remaining.getD 1,
             reset := h.reset.getD 0, resetAfter := h.resetAfter.getD 0,
             bucket := h.bucket, global := false } ∧
    ∀ k, k ≠ bucketId →
      lookupAssoc k (updateRateLimits h bucketId now st).buckets =
        lookupAssoc k st.buckets := by
  constructor
  · simp [updateRateLimits, hg, lookupAssoc_setAssoc_self]
  · intro k hk
    simp [updateRateLimits, hg, lookupAssoc_setAssoc_ne _ _ _ hk]

/-- C8 witness: the amended storage rule at a concrete non-global
response. -/
theorem updateRateLimits_local_key_witness :
    lookupAssoc "GET:/guilds/9"
      (updateRateLimits
        { limit := some 2, remaining := some 1, reset := some 50, resetAfter := some 5,
          bucket := some "svc", global := false } "GET:/guilds/9" 0 {}).buckets =
      some { limit := 2, remaining := 1, reset := 50, resetAfter := 5,
             bucket := some "svc", global := false } :=
  (updateRateLimits_local_key
    { limit := some 2, remaining := some 1, reset := some 50, resetAfter := some 5,
      bucket := some "svc", global := false } "GET:/guilds/9" 0 {} rfl).1

/-- C6: the admission gate never lets a request proceed before the global
reset once the global bucket is exhausted (whatever the bucket), never
before the bucket's reset once that bucket is exhausted, never travels
back in time, and when both gates are live the global wait comes first. -/
theorem admission_gates (st : RESTState) (now : Int) (bucketId : String) :
    (st.globalRemaining ≤ 0 → st.globalReset ≤ (admission st now bucketId).1) ∧
    (∀ b, lookupAssoc bucketId st.buckets = some b → b.remaining ≤ 0 →
      b.reset * 1000 ≤ (admission st now bucketId).1) ∧
    now ≤ (admission st now bucketId).1 ∧
    (∀ b, lookupAssoc bucketId st.buckets = some b →
      st.globalRemaining ≤ 0 → now < st.globalReset →
      b.remaining ≤ 0 → st.globalReset < b.reset * 1000 →
      (admission st now bucketId).2 =
        [RESTEvent.slept (st.globalReset - now),
         RESTEvent.slept (b.reset * 1000 - st.globalReset)]) := by
  refine ⟨?_, ?_, ?_, ?_⟩
  · intro hgr
    by_cases hg2 : now < st.globalReset
    · cases hb : lookupAssoc bucketId st.buckets with
      | none => simp [admission, hb, hgr, hg2]
      | some b =>
        by_cases hb1 : b.remaining ≤ 0 <;> by_cases hb2 : st.globalReset < b.reset * 1000 <;>
          simp [admission, hb, hgr, hg2, hb1, hb2] <;> omega
    · cases hb : lookupAssoc bucketId st.buckets with
      | none =>
        simp [admission, hb, hg2]
        omega
      | some b =>
        by_cases hb1 : b.remaining ≤ 0 <;> by_cases hb2 : now < b.reset * 1000 <;>
          simp [admission, hb, hg2, hb1, hb2] <;> omega
  · intro b hbs hbr
    by_cases hg1 : st.globalRemaining ≤ 0
    · by_cases hg2 : now < st.globalReset
      · by_cases h2 : st.globalReset < b.reset * 1000 <;>
          simp [admission, hbs, hg1, hg2, hbr, h2] <;> omega
      · by_cases h2 : now < b.reset * 1000 <;>
          simp [admission, hbs, hg1, hg2, hbr, h2] <;> omega
    · by_cases h2 : now < b.reset * 1000 <;>
        simp [admission, hbs, hg1, hbr, h2] <;> omega
  · cases hb : lookupAssoc bucketId st.buckets with
    | none =>
      by_cases hg : st.globalRemaining ≤ 0 ∧ now < st.globalReset <;>
        simp [admission, hb, hg] <;> omega
    | some b =>
      by_cases hg : st.globalRemaining ≤ 0 ∧ now < st.globalReset
      · by_cases h2 : b.remaining ≤ 0 ∧ st.globalReset < b.reset * 1000 <;>
          simp [admission, hb, hg, h2] <;> omega
      · by_cases h2 : b.remaining ≤ 0 ∧ now < b.reset * 1000 <;>
          simp [admission, hb, hg, h2] <;> omega
  · intro b hbs hg1 hg2 hbr h2
    simp [admission, hbs, hg1, hg2, hbr, h2]

/-- C6 witness: the spec's scenario — a bucket with `remaining = 0` and
reset two seconds ahead is not reached before `reset * 1000 = 2000`. -/
theorem admission_gates_witness :
    ({ limit := 5, remaining := 0, reset := 2, resetAfter := 2, bucket := none,
       global := false } : RateLimitData).reset * 1000 ≤
      (admission
        { globalReset := 0, globalRemaining := 1,
          buckets := [("GET:/channels/1",
            { limit := 5, remaining := 0, reset := 2, resetAfter := 2, bucket := none,
              global := false })] }
        0 "GET:/channels/1").1 :=
  (admission_gates
    { globalReset := 0, globalRemaining := 1,
      buckets := [("GET:/channels/1",
        { limit := 5, remaining := 0, reset := 2, resetAfter := 2, bucket := none,
          global := false })] }
    0 "GET:/channels/1").2.1
    { limit := 5, remaining := 0, reset := 2, resetAfter := 2, bucket := none,
      global := false } (by decide) (by decide)

/-- One loop iteration, 2xx head. -/
theorem processLoop_step_ok (cfg : ClientConfig) (i : Nat) (scr : List Outcome)
    (r : Nat) (rest : List QueuedRequest) (fuel : Nat) :
    processLoop cfg (fuel + 1) ({ id := i, script := Outcome.ok :: scr, retries := r } :: rest)
      = (processLoop cfg fuel rest).map
          (fun evts => RESTEvent.executed i :: RESTEvent.resolvedOk i :: evts) := by
  simp [processLoop]

/-- One loop iteration, 429 head: the request goes back to the front with
its `retries` untouched, after the service-given sleep. -/
theorem processLoop_step_429 (cfg : ClientConfig) (i : Nat) (ra : Int)
    (scr : List Outcome) (r : Nat) (rest : List QueuedRequest) (fuel : Nat) :
    processLoop cfg (fuel + 1)
        ({ id := i, script := Outcome.err 429 ra :: scr, retries := r } :: rest)
      = (processLoop cfg fuel ({ id := i, script := scr, retries := r } :: rest)).map
          (fun evts => RESTEvent.executed i :: RESTEvent.slept ra :: evts) := by
  simp [processLoop]

/-- One loop iteration, non-429 error head with retry budget left: the
request goes back to the front with `retries + 1`. -/
theorem processLoop_step_err_retry (cfg : ClientConfig) (i status : Nat) (ra : Int)
    (scr : List Outcome) (r : Nat) (rest : List QueuedRequest) (fuel : Nat)
    (hs : status ≠ 429) (hlt : r < cfg.rateLimitRetryLimit) :
    processLoop cfg (fuel + 1)
        ({ id := i, script := Outcome.err status ra :: scr, retries := r } :: rest)
      = (processLoop cfg fuel ({ id := i, script := scr, retries := r + 1 } :: rest)).map
          (fun evts => RESTEvent.executed i :: evts) := by
  simp [processLoop, hs, hlt]

/-- One loop iteration, non-429 error head with the budget exhausted: the
request is rejected. -/
theorem processLoop_step_err_reject (cfg : ClientConfig) (i status : Nat) (ra : Int)
    (scr : List Outcome) (r : Nat) (rest : List QueuedRequest) (fuel : Nat)
    (hs : status ≠ 429) (hnr : ¬ r < cfg.rateLimitRetryLimit) :
    processLoop cfg (fuel + 1)
        ({ id := i, script := Outcome.err status ra :: scr, retries := r } :: rest)
      = (processLoop cfg fuel rest).map
          (fun evts => RESTEvent.executed i :: RESTEvent.rejectedErr i status :: evts) := by
  simp [processLoop, hs, hnr]

/-- A completed run of the per-bucket loop completes the requests exactly
in queue order: the head is always worked on until it resolves or is
rejected, and a request put back for retry goes to the front. -/
theorem processLoop_completion_fifo (cfg : ClientConfig) :
    ∀ (fuel : Nat) (q : List QueuedRequest) (evts : List RESTEvent),
      processLoop cfg fuel q = some evts →
      completionIds evts = q.map QueuedRequest.id := by
  intro fuel
  induction fuel with
  | zero =>
    intro q evts h
    cases q with
    | nil =>
      simp [processLoop] at h
      subst h
      rfl
    | cons a t => simp [processLoop] at h
  | succ n ih =>
    intro q evts h
    cases q with
    | nil =>
      simp [processLoop] at h
      subst h
      rfl
    | cons req rest =>
      cases hscr : req.script with
      | nil => simp [processLoop, hscr] at h
      | cons outcome scr =>
        cases outcome with
        | ok =>
          cases hrec : processLoop cfg n rest with
          | none => simp [processLoop, hscr, hrec] at h
          | some evts2 =>
            simp [processLoop, hscr, hrec] at h
            subst h
            simp [completionIds, ih _ _ hrec]
        | err status ra =>
          by_cases h429 : status = 429
          · subst h429
            cases hrec : processLoop cfg n ({ req with script := scr } :: rest) with
            | none => simp [processLoop, hscr, hrec] at h
            | some evts2 =>
              simp [processLoop, hscr, hrec] at h
              subst h
              simpa [completionIds] using ih _ _ hrec
          · by_cases hret : req.retries < cfg.rateLimitRetryLimit
            · cases hrec : processLoop cfg n
                ({ req with script := scr, retries := req.retries + 1 } :: rest) with
              | none => simp [processLoop, hscr, h429, hret, hrec] at h
              | some evts2 =>
                simp [processLoop, hscr, h429, hret, hrec] at h
                subst h
                simpa [completionIds] using ih _ _ hrec
            · cases hrec : processLoop cfg n rest with
              | none => simp [processLoop, hscr, h429, hret, hrec] at h
              | some evts2 =>
                simp [processLoop, hscr, h429, hret, hrec] at h
                subst h
                simpa [completionIds] using ih _ _ hrec

/-- C7: a bucket already marked as processing is not entered a second time
(so at most one loop — hence one in-flight request — per bucket), and a
completed run of a bucket's queue completes its requests in FIFO
submission order, a retried request staying ahead of later submissions. -/
theorem bucket_sequential_fifo (cfg : ClientConfig) (fuel : Nat) (st : RESTQueues)
    (bucketId : String) (q : List QueuedRequest) (evts : List RESTEvent) :
    (bucketId ∈ st.processing → processQueueCall cfg fuel st bucketId = some []) ∧
    (processLoop cfg fuel q = some evts → completionIds evts = q.map QueuedRequest.id) := by
  constructor
  · intro hp
    simp [processQueueCall, hp]
  · exact processLoop_completion_fifo cfg fuel q evts

/-- C7 witness: the busy-bucket guard and the FIFO order on the demo
queue, whose first request is retried once. -/
theorem bucket_sequential_fifo_witness :
    processQueueCall defaultConfig 9 procBusy "GET:/a" = some [] ∧
    completionIds demoEvents = demoQueue.map QueuedRequest.id :=
  ⟨(bucket_sequential_fifo defaultConfig 9 procBusy "GET:/a" demoQueue demoEvents).1
      (by decide),
   (bucket_sequential_fifo defaultConfig 9 procBusy "GET:/a" demoQueue demoEvents).2
      (by decide)⟩

/-- C4 (counterexample): a request answered 404 four times in a row is
executed four times — the claim says a 4xx other than 429 is resolved
immediately and never re-executed, i.e. executed exactly once. -/
theorem client_error_retried_cx :
    processLoop defaultConfig 9
      [{ id := 7, script := List.replicate 4 (Outcome.err 404 0), retries := 0 }] =
      some [RESTEvent.executed 7, RESTEvent.executed 7, RESTEvent.executed 7,
            RESTEvent.executed 7, RESTEvent.rejectedErr 7 404] ∧
    countExecuted [RESTEvent.executed 7, RESTEvent.executed 7, RESTEvent.executed 7,
                   RESTEvent.executed 7, RESTEvent.rejectedErr 7 404] = 4 ∧
    (4 : Nat) ≠ 1 := by
  decide

/-- Exhausting the retry budget on a non-429 error: starting at `retries = r`
with `r + k` equal to the configured limit, the request is executed `k + 1`
more times and then rejected. -/
theorem processLoop_err_exhaust (cfg : ClientConfig) (i status : Nat) (ra : Int)
    (hs : status ≠ 429) :
    ∀ (k r : Nat), r + k = cfg.rateLimitRetryLimit →
      processLoop cfg (k + 2)
        [{ id := i, script := List.replicate (k + 1) (Outcome.err status ra),
           retries := r }] =
        some (List.replicate (k + 1) (RESTEvent.executed i) ++
              [RESTEvent.rejectedErr i status]) := by
  intro k
  induction k with
  | zero =>
    intro r hr
    have hnr : ¬ r < cfg.rateLimitRetryLimit := by omega
    have step := processLoop_step_err_reject cfg i status ra [] r [] 1 hs hnr
    simpa [processLoop] using step
  | succ k2 ih =>
    intro r hr
    have hlt : r < cfg.rateLimitRetryLimit := by omega
    have ih2 := ih (r + 1) (by omega)
    have step := processLoop_step_err_retry cfg i status ra
      (List.replicate (k2 + 1) (Outcome.err status ra)) r [] (k2 + 2) hs hlt
    rw [show List.replicate (k2 + 1 + 1) (Outcome.err status ra)
          = Outcome.err status ra :: List.replicate (k2 + 1) (Outcome.err status ra) from rfl,
        show List.replicate (k2 + 1 + 1) (RESTEvent.executed i)
          = RESTEvent.executed i :: List.replicate (k2 + 1) (RESTEvent.executed i) from rfl,
        show k2 + 1 + 2 = (k2 + 2) + 1 from rfl,
        step, ih2]
    simp

/-- C4 (amended): a request whose response is any non-429 error — a 4xx
included — is not resolved immediately: it is retried, each retry
consuming the attempt counter, until the counter reaches
`rateLimitRetryLimit`, and only then rejected as an error; a 2xx response
resolves as success. -/
theorem nonRateLimit_error_retry_then_reject (cfg : ClientConfig) (i status : Nat)
    (ra : Int) (hs : status ≠ 429) :
    processLoop cfg (cfg.rateLimitRetryLimit + 2)
      [{ id := i,
         script := List.replicate (cfg.rateLimitRetryLimit + 1) (Outcome.err status ra),
         retries := 0 }] =
      some (List.replicate (cfg.rateLimitRetryLimit + 1) (RESTEvent.executed i) ++
            [RESTEvent.rejectedErr i status]) ∧
    processLoop cfg 2 [{ id := i, script := [Outcome.ok], retries := 0 }] =
      some [RESTEvent.executed i, RESTEvent.resolvedOk i] := by
  constructor
  · exact processLoop_err_exhaust cfg i status ra hs cfg.rateLimitRetryLimit 0 (by omega)
  · simp [processLoop]

/-- C4 witness: with the default limit of 3, a request failing with 500 is
executed four times then rejected, and a 2xx resolves at once. -/
theorem nonRateLimit_error_retry_then_reject_witness :
    processLoop defaultConfig 5
      [{ id := 8, script := List.replicate 4 (Outcome.err 500 0), retries := 0 }] =
      some (List.replicate 4 (RESTEvent.executed 8) ++ [RESTEvent.rejectedErr 8 500]) ∧
    processLoop defaultConfig 2 [{ id := 8, script := [Outcome.ok], retries := 0 }] =
      some [RESTEvent.executed 8, RESTEvent.resolvedOk 8] :=
  nonRateLimit_error_retry_then_reject defaultConfig 8 500 0 (by decide)

/-- C5: a request rate-limited `k` times in a row sleeps the service-given
`retryAfter` before each re-execution and finally resolves, whatever `k`,
whatever the configured retry limit, and with the attempt counter `r`
never incremented — a 429 never counts against the limit. -/
theorem rate_limited_retry_uncounted (cfg : ClientConfig) (i : Nat) (ra : Int) :
    ∀ (k r : Nat),
      processLoop cfg (k + 2)
        [{ id := i, script := List.replicate k (Outcome.err 429 ra) ++ [Outcome.ok],
           retries := r }] =
        some ((List.replicate k [RESTEvent.executed i, RESTEvent.slept ra]).flatten ++
              [RESTEvent.executed i, RESTEvent.resolvedOk i]) := by
  intro k
  induction k with
  | zero =>
    intro r
    simp [processLoop]
  | succ k2 ih =>
    intro r
    have step := processLoop_step_429 cfg i ra
      (List.replicate k2 (Outcome.err 429 ra) ++ [Outcome.ok]) r [] (k2 + 2)
    rw [show List.replicate (k2 + 1) (Outcome.err 429 ra) ++ [Outcome.ok]
          = Outcome.err 429 ra :: (List.replicate k2 (Outcome.err 429 ra) ++ [Outcome.ok])
          from rfl,
        show k2 + 1 + 2 = (k2 + 2) + 1 from rfl,
        step, ih r]
    simp [List.replicate_succ]

end Astrium
